import Mathlib

/-!
Verification of the scheduling / backup-cycle logic of
`scripts/mysql_backup.py` (autobackup-dcm), as a shallow embedding.

The embedding models:
* the per-app last-backup record (`app['bk']`, keys `last_year`, `last_month`,
  `last_week`, `last_day`) and the current time fields `do_backup` extracts
  from `datetime.datetime.now()`;
* the tier-selection `if`/`elif` chain of `do_backup` (lines 143-174);
* `create_full_backup` (lines 189-230): outcomes of the external dump /
  compress commands and of the upload, with its `return` value modelled as
  `Option Bool` (the `except ExternalCommandFailed` path falls off the end of
  the function, i.e. returns `None`);
* the per-app cycle of `do_backup`'s loop body (lines 140-184): tier decision,
  backup creation, timestamp advance, rotation and save;
* the multi-app loop of `do_backup` and the config load;
* `save_last_backup_datetime` (lines 51-65): the sequence of file contents of
  `CONFIG_FILE` during the in-place `open(..., 'w')` + `json.dump` write;
* the artifact-name construction of `create_full_backup` (lines 198-201).
-/

/-- The four stored timestamps of an app: `app['bk']['last_year']`,
`['last_month']`, `['last_week']`, `['last_day']` in the config file. -/
structure LastBackup where
  last_year : Nat
  last_month : Nat
  last_week : Nat
  last_day : Nat
deriving DecidableEq, Repr

/-- The fields `do_backup` reads from `datetime.datetime.now()`:
`now.year`, `now.month`, `now.isocalendar()[1]` (ISO week), `now.day`. -/
structure Now where
  year : Nat
  month : Nat
  isoWeek : Nat
  day : Nat
deriving DecidableEq, Repr

/-- The backup tiers, i.e. the `backup_type` strings handed to
`create_full_backup` by `do_backup`. -/
inductive Tier where
  | yearly
  | monthly
  | weekly
  | daily
deriving DecidableEq, Repr

/-- Outcomes of the external collaborators used by one call of
`create_full_backup` (and of the rotation that may follow), as booleans:
* `dumpRaises`: one of the two `execute` calls (mysqldump / gzip) raises
  `ExternalCommandFailed`;
* `gzipResult`: the truthiness of `cmd_result` returned by the gzip
  `execute` call when no exception is raised;
* `uploadResult`: the value returned by `upload_backup` (its bare
  `except:` clause maps any exception to `False`, so a boolean suffices);
* `rotationFails`: whether the rotation pass records errors. -/
structure ExtEnv where
  dumpRaises : Bool
  gzipResult : Bool
  uploadResult : Bool
  rotationFails : Bool
deriving DecidableEq, Repr

/-- `upload_backup` (lines 99-122): returns the upload result; any exception
is caught by the bare `except:` and becomes `False`, which the boolean
`uploadResult` already accounts for. -/
def upload_backup (uploadResult : Bool) : Bool :=
  uploadResult

/-- The return value of `create_full_backup` (lines 206-230).  Inside the
`try`: if `cmd_result` (the gzip outcome) is truthy, `cmd_result` is
reassigned to `upload_backup(...)` and returned; otherwise the falsy
`cmd_result` is returned (modelled `some false`).  The
`except ExternalCommandFailed` handler only logs, so the function returns
`None` (modelled `none`). -/
def create_full_backup (env : ExtEnv) : Option Bool :=
  if env.dumpRaises then none
  else if env.gzipResult then some (upload_backup env.uploadResult)
  else some false

/-- Python truthiness of the value bound to `backup_created` in `do_backup`:
`None` and `False` are falsy, `True` is truthy. -/
def isTruthy : Option Bool → Bool
  | some b => b
  | none => false

/-- The tier-selection chain of `do_backup` (lines 143-174), conditions only:
strict `>` comparisons, evaluated as an exclusive `if`/`elif` chain. -/
def decideTier (now : Now) (bk : LastBackup) : Option Tier :=
  if bk.last_year < now.year then some Tier.yearly
  else if bk.last_month < now.month then some Tier.monthly
  else if bk.last_week < now.isoWeek then some Tier.weekly
  else if bk.last_day < now.day then some Tier.daily
  else none

/-- The timestamp advance performed in each branch of `do_backup` when
`backup_created` is truthy (lines 147-150, 157-159, 166-167, 173). -/
def applyTier (now : Now) (t : Tier) (bk : LastBackup) : LastBackup :=
  match t with
  | Tier.yearly =>
      { last_year := now.year, last_month := now.month,
        last_week := now.isoWeek, last_day := now.day }
  | Tier.monthly =>
      { bk with last_month := now.month, last_week := now.isoWeek,
                last_day := now.day }
  | Tier.weekly =>
      { bk with last_week := now.isoWeek, last_day := now.day }
  | Tier.daily =>
      { bk with last_day := now.day }

/-- Modelled from the spec: `rotate_backups` (lines 68-96) delegates to
`RotateBackupsCM` of module `rotate_dcm`, whose source is not under `src/`.
Per spec §4.2/§7, a failure deleting an artifact is recorded as a per-artifact
error and does not abort the pass: the call returns (reporting whether errors
were recorded) rather than raising. -/
def rotate_backups (rotationFails : Bool) : Bool :=
  rotationFails

/-- Result of one iteration of `do_backup`'s loop body for one app:
the app's (possibly advanced) `bk` record, which tier's
`create_full_backup` was attempted (if any), whether `rotate_backups` ran,
whether it recorded errors, and whether `save_last_backup_datetime` ran. -/
structure AppCycleResult where
  bk : LastBackup
  attempted : Option Tier
  rotated : Bool
  rotationErrors : Bool
  saved : Bool
deriving DecidableEq, Repr

/-- One iteration of `do_backup`'s loop body (lines 140-184): the exclusive
`if`/`elif` chain picks at most one tier and calls `create_full_backup` for
it; only when `backup_created` is truthy are the timestamps advanced and
`rotate` set, and only then do `rotate_backups` and
`save_last_backup_datetime` run. -/
def appCycle (now : Now) (env : ExtEnv) (bk : LastBackup) : AppCycleResult :=
  match decideTier now bk with
  | none => ⟨bk, none, false, false, false⟩
  | some t =>
      let backup_created := isTruthy (create_full_backup env)
      if backup_created then
        ⟨applyTier now t bk, some t, true, rotate_backups env.rotationFails, true⟩
      else
        ⟨bk, some t, false, false, false⟩

/-- An app entry of the loaded configuration list, restricted to what the
loop body consumes in the model: its `bk` record and the outcomes of its
external collaborators. -/
structure AppIn where
  bk : LastBackup
  env : ExtEnv
deriving DecidableEq, Repr

/-- The multi-app part of `do_backup` (lines 131-186): `read_config` either
fails (an exception aborts the whole run before any app is processed,
modelled `none`) or yields the app list, and the `for` loop then processes
every app in order, each iteration depending only on that app's own data. -/
def do_backup (cfg : Option (List AppIn)) (now : Now) :
    Option (List AppCycleResult) :=
  match cfg with
  | none => none
  | some apps => some (apps.map fun a => appCycle now a.env a.bk)

/-- The app's `bk` record after one loop iteration in which the selected
tier's backup succeeded (or no tier was due): the state fed to the next
invocation's decision. -/
def updateIfDue (now : Now) (bk : LastBackup) : LastBackup :=
  match decideTier now bk with
  | none => bk
  | some t => applyTier now t bk

/-- Priority rank of a tier in the `if`/`elif` chain (higher = checked
first). -/
def tierPrio : Tier → Nat
  | Tier.yearly => 3
  | Tier.monthly => 2
  | Tier.weekly => 1
  | Tier.daily => 0

/-- The individual comparison of the chain that guards each tier. -/
def tierCond (now : Now) (bk : LastBackup) : Tier → Bool
  | Tier.yearly => decide (bk.last_year < now.year)
  | Tier.monthly => decide (bk.last_month < now.month)
  | Tier.weekly => decide (bk.last_week < now.isoWeek)
  | Tier.daily => decide (bk.last_day < now.day)

/-! ### State persistence (`save_last_backup_datetime`, lines 51-65)

File contents are modelled as `List Char`.  `json.dump(cfg, f)` serializes
the whole configuration list in one call; the serializer below abstracts its
output format while keeping the one property the source fixes: the written
content is a single document covering every app's record. -/

/-- A model of the serialized form of one app's `bk` record inside the
config file (the `json.dump` output for one list element). -/
def serializeBk (bk : LastBackup) : List Char :=
  ("\x7b\"last_year\": " ++ toString bk.last_year ++
   ", \"last_month\": " ++ toString bk.last_month ++
   ", \"last_week\": " ++ toString bk.last_week ++
   ", \"last_day\": " ++ toString bk.last_day ++ "\x7d").data

/-- The serialized form of the whole configuration list, as `json.dump(cfg, f)`
writes it: one document containing every app's record. -/
def serializeCfg (cfg : List AppIn) : List Char :=
  "[".data ++ (cfg.map fun a => serializeBk a.bk).flatten ++ "]".data

/-- The sequence of observable contents of `CONFIG_FILE` during
`save_last_backup_datetime`: `open(CONFIG_FILE, 'w')` truncates the file to
empty, then `json.dump` appends the serialized configuration; the entry at
index `k` is the content after `k` characters have been written, i.e. what a
crash at that point leaves behind. -/
def save_last_backup_datetime (cfg : List AppIn) : List (List Char) :=
  (List.range ((serializeCfg cfg).length + 1)).map
    fun k => (serializeCfg cfg).take k

/-- An atomic-swap write discipline (stated from the spec's words, §4.4/§9,
as the refinement target): every file content observable during the save is
either the complete old state or the complete new state. -/
def IsAtomicSwap (states : List (List Char))
    (oldContent newContent : List Char) : Prop :=
  ∀ s ∈ states, s = oldContent ∨ s = newContent

/-! ### Artifact naming (`create_full_backup`, lines 198-201) -/

/-- Two-digit zero padding, as `strftime` produces for `%m`, `%d`, `%H`,
`%M`. -/
def pad2 (n : Nat) : String :=
  if n < 10 then "0" ++ toString n else toString n

/-- Four-digit zero padding, as `strftime` produces for `%Y`. -/
def pad4 (n : Nat) : String :=
  if n < 10 then "000" ++ toString n
  else if n < 100 then "00" ++ toString n
  else if n < 1000 then "0" ++ toString n
  else toString n

/-- `filestamp = time.strftime('%Y-%m-%d_%H-%M')` (line 198): the creation
time to minute precision. -/
def filestamp (year month day hour minute : Nat) : String :=
  pad4 year ++ "-" ++ pad2 month ++ "-" ++ pad2 day ++ "_" ++
  pad2 hour ++ "-" ++ pad2 minute

/-- The `backup_type` strings `do_backup` passes to `create_full_backup`
(lines 144, 154, 163, 171). -/
def tierString : Tier → String
  | Tier.yearly => "yearly"
  | Tier.monthly => "monthly"
  | Tier.weekly => "weekly"
  | Tier.daily => "daily"

/-- The `backup_file` path built at lines 200-201:
`'...'.format(local_backup_dir, app_name, filestamp, backup_type, 'gz')`. -/
def backup_file (local_backup_dir app_name fs backup_type : String) : String :=
  local_backup_dir ++ app_name ++ "_" ++ fs ++ "_" ++ backup_type ++ "." ++ "gz"

/-- The spec's canonical artifact name (stated from the spec's words, §3/§6,
as the refinement target): appName, underscore, timestamp, underscore, tier,
dot, extension. -/
def canonicalName (appName timestamp tierStr ext : String) : String :=
  appName ++ "_" ++ timestamp ++ "_" ++ tierStr ++ "." ++ ext

/-! ## Helper lemmas -/

/-- The tier whose `create_full_backup` call a loop iteration attempts is
exactly the one the `if`/`elif` chain selects. -/
theorem appCycle_attempted (now : Now) (env : ExtEnv) (bk : LastBackup) :
    (appCycle now env bk).attempted = decideTier now bk := by
  unfold appCycle
  cases decideTier now bk with
  | none => rfl
  | some t =>
      by_cases hc : isTruthy (create_full_backup env) = true <;> simp [hc]

/-- When the chain selects a tier and the backup is reported created, the
stored record becomes `applyTier` of that tier. -/
theorem appCycle_bk_created (now : Now) (env : ExtEnv) (bk : LastBackup)
    (t : Tier) (hdue : decideTier now bk = some t)
    (hc : isTruthy (create_full_backup env) = true) :
    (appCycle now env bk).bk = applyTier now t bk := by
  simp [appCycle, hdue, hc]

/-- The chain always selects the highest-priority tier among those whose
individual comparison holds. -/
theorem decideTier_highest (now : Now) (bk : LastBackup) (t : Tier)
    (h : tierCond now bk t = true) :
    ∃ u, decideTier now bk = some u ∧ tierCond now bk u = true ∧
      ∀ v, tierCond now bk v = true → tierPrio v ≤ tierPrio u := by
  by_cases hY : bk.last_year < now.year
  · refine ⟨Tier.yearly, by simp [decideTier, hY], by simp [tierCond, hY], ?_⟩
    intro v _
    cases v <;> simp [tierPrio]
  · by_cases hM : bk.last_month < now.month
    · refine ⟨Tier.monthly, by simp [decideTier, hY, hM],
        by simp [tierCond, hM], ?_⟩
      intro v hv
      cases v <;> simp_all [tierCond, tierPrio] <;> omega
    · by_cases hW : bk.last_week < now.isoWeek
      · refine ⟨Tier.weekly, by simp [decideTier, hY, hM, hW],
          by simp [tierCond, hW], ?_⟩
        intro v hv
        cases v <;> simp_all [tierCond, tierPrio] <;> omega
      · by_cases hD : bk.last_day < now.day
        · refine ⟨Tier.daily, by simp [decideTier, hY, hM, hW, hD],
            by simp [tierCond, hD], ?_⟩
          intro v hv
          cases v <;> simp_all [tierCond, tierPrio] <;> omega
        · exfalso
          cases t <;> simp only [tierCond, decide_eq_true_eq] at h <;> omega

/-! ## Claim theorems -/

/-- Claim C1 (counterexample): a concrete run in which artifact creation
succeeded (`gzipResult = true`) but the upload failed
(`uploadResult = false`): `create_full_backup` returns the upload result
(`some false`), a daily tier was attempted, and rotation is NOT invoked —
refuting the claim that the cycle proceeds to rotation regardless of upload
outcome. -/
theorem upload_fail_blocks_rotation_counterexample :
    create_full_backup ⟨false, true, false, false⟩ = some false ∧
    (appCycle ⟨2025, 1, 1, 2⟩ ⟨false, true, false, false⟩
      ⟨2025, 1, 1, 1⟩).attempted = some Tier.daily ∧
    (appCycle ⟨2025, 1, 1, 2⟩ ⟨false, true, false, false⟩
      ⟨2025, 1, 1, 1⟩).rotated = false := by
  decide

/-- Claim C1 (amended): whenever a tier is due, creation succeeds and the
upload fails, `create_full_backup` returns the upload result, so
`backup_created` is falsy: rotation is NOT invoked, nothing is saved, and
the stored timestamps stay unchanged (the upload failure is only logged). -/
theorem upload_fail_blocks_rotation (now : Now) (env : ExtEnv)
    (bk : LastBackup) (t : Tier) (hdue : decideTier now bk = some t)
    (hdump : env.dumpRaises = false) (hgzip : env.gzipResult = true)
    (hupload : env.uploadResult = false) :
    (appCycle now env bk).rotated = false ∧
    (appCycle now env bk).saved = false ∧
    (appCycle now env bk).bk = bk := by
  have hc : isTruthy (create_full_backup env) = false := by
    simp [create_full_backup, upload_backup, hdump, hgzip, hupload, isTruthy]
  simp [appCycle, hdue, hc]

/-- Claim C1 (witness for the amended theorem): the concrete daily-due run
with successful creation and failed upload. -/
theorem upload_fail_blocks_rotation_witness :
    decideTier ⟨2025, 1, 1, 2⟩ ⟨2025, 1, 1, 1⟩ = some Tier.daily ∧
    ((appCycle ⟨2025, 1, 1, 2⟩ ⟨false, true, false, false⟩
        ⟨2025, 1, 1, 1⟩).rotated = false ∧
     (appCycle ⟨2025, 1, 1, 2⟩ ⟨false, true, false, false⟩
        ⟨2025, 1, 1, 1⟩).saved = false ∧
     (appCycle ⟨2025, 1, 1, 2⟩ ⟨false, true, false, false⟩
        ⟨2025, 1, 1, 1⟩).bk = ⟨2025, 1, 1, 1⟩) :=
  ⟨by decide,
   upload_fail_blocks_rotation ⟨2025, 1, 1, 2⟩ ⟨false, true, false, false⟩
     ⟨2025, 1, 1, 1⟩ Tier.daily (by decide) rfl rfl rfl⟩

/-- Claim C2: when more than one tier condition is individually true,
exactly one backup is attempted on that run, and it is of the
highest-priority tier whose condition holds; no other tier fires on the
same call. -/
theorem exclusive_priority_chain (now : Now) (env : ExtEnv)
    (bk : LastBackup) (t₁ t₂ : Tier) (h₁ : tierCond now bk t₁ = true)
    (h₂ : tierCond now bk t₂ = true) (hne : t₁ ≠ t₂) :
    ∃ t, (appCycle now env bk).attempted = some t ∧
      tierCond now bk t = true ∧
      (∀ v, tierCond now bk v = true → tierPrio v ≤ tierPrio t) ∧
      ∀ u, u ≠ t → (appCycle now env bk).attempted ≠ some u := by
  obtain ⟨u, hu, hcond, hmax⟩ := decideTier_highest now bk t₁ h₁
  refine ⟨u, ?_, hcond, hmax, ?_⟩
  · rw [appCycle_attempted, hu]
  · intro v hv hcontra
    rw [appCycle_attempted, hu] at hcontra
    exact hv (Option.some_injective _ hcontra).symm

/-- Claim C2 (witness): year and month have both advanced; the yearly tier
alone is attempted. -/
theorem exclusive_priority_chain_witness :
    tierCond ⟨2025, 5, 3, 4⟩ ⟨2024, 3, 1, 1⟩ Tier.yearly = true ∧
    tierCond ⟨2025, 5, 3, 4⟩ ⟨2024, 3, 1, 1⟩ Tier.monthly = true ∧
    (∃ t, (appCycle ⟨2025, 5, 3, 4⟩ ⟨false, true, true, false⟩
        ⟨2024, 3, 1, 1⟩).attempted = some t ∧
      tierCond ⟨2025, 5, 3, 4⟩ ⟨2024, 3, 1, 1⟩ t = true ∧
      (∀ v, tierCond ⟨2025, 5, 3, 4⟩ ⟨2024, 3, 1, 1⟩ v = true →
        tierPrio v ≤ tierPrio t) ∧
      ∀ u, u ≠ t → (appCycle ⟨2025, 5, 3, 4⟩ ⟨false, true, true, false⟩
        ⟨2024, 3, 1, 1⟩).attempted ≠ some u) :=
  ⟨by decide, by decide,
   exclusive_priority_chain ⟨2025, 5, 3, 4⟩ ⟨false, true, true, false⟩
     ⟨2024, 3, 1, 1⟩ Tier.yearly Tier.monthly (by decide) (by decide)
     (by decide)⟩

/-- Claim C3: if the yearly tier fires and the backup is reported created,
all four stored timestamps are advanced to `now`'s year, month, ISO week
and day — never only a subset. -/
theorem yearly_advances_all_timestamps (now : Now) (env : ExtEnv)
    (bk : LastBackup) (hy : decideTier now bk = some Tier.yearly)
    (hc : isTruthy (create_full_backup env) = true) :
    (appCycle now env bk).bk =
      ⟨now.year, now.month, now.isoWeek, now.day⟩ := by
  rw [appCycle_bk_created now env bk Tier.yearly hy hc]
  rfl

/-- Claim C3 (witness): the spec's §8 scenario — last backup
2023-12 / week 52 / day 31, now 2024-01-01 (ISO week 1). -/
theorem yearly_advances_all_timestamps_witness :
    decideTier ⟨2024, 1, 1, 1⟩ ⟨2023, 12, 52, 31⟩ = some Tier.yearly ∧
    isTruthy (create_full_backup ⟨false, true, true, false⟩) = true ∧
    (appCycle ⟨2024, 1, 1, 1⟩ ⟨false, true, true, false⟩
      ⟨2023, 12, 52, 31⟩).bk = ⟨2024, 1, 1, 1⟩ :=
  ⟨by decide, by decide,
   yearly_advances_all_timestamps ⟨2024, 1, 1, 1⟩ ⟨false, true, true, false⟩
     ⟨2023, 12, 52, 31⟩ (by decide) (by decide)⟩

/-- Claim C4: after a run in which the attempted backup was created (or in
which nothing was due), re-running the tier decision with the same `now`
over the updated record selects no tier at all, because every comparison is
strict greater-than. -/
theorem second_run_no_backup_due (now : Now) (env : ExtEnv)
    (bk : LastBackup) (hc : isTruthy (create_full_backup env) = true) :
    decideTier now ((appCycle now env bk).bk) = none := by
  by_cases hY : bk.last_year < now.year
  · have : decideTier now bk = some Tier.yearly := by simp [decideTier, hY]
    rw [appCycle_bk_created now env bk Tier.yearly this hc]
    simp [decideTier, applyTier]
  · by_cases hM : bk.last_month < now.month
    · have : decideTier now bk = some Tier.monthly := by
        simp [decideTier, hY, hM]
      rw [appCycle_bk_created now env bk Tier.monthly this hc]
      simp [decideTier, applyTier, hY]
    · by_cases hW : bk.last_week < now.isoWeek
      · have : decideTier now bk = some Tier.weekly := by
          simp [decideTier, hY, hM, hW]
        rw [appCycle_bk_created now env bk Tier.weekly this hc]
        simp [decideTier, applyTier, hY, hM]
      · by_cases hD : bk.last_day < now.day
        · have : decideTier now bk = some Tier.daily := by
            simp [decideTier, hY, hM, hW, hD]
          rw [appCycle_bk_created now env bk Tier.daily this hc]
          simp [decideTier, applyTier, hY, hM, hW]
        · have hnone : decideTier now bk = none := by
            simp [decideTier, hY, hM, hW, hD]
          simp [appCycle, hnone]

/-- Claim C4 (witness): a daily backup succeeds at 2025-06-11 (week 24);
deciding again with the same `now` over the updated record yields no tier. -/
theorem second_run_no_backup_due_witness :
    isTruthy (create_full_backup ⟨false, true, true, false⟩) = true ∧
    decideTier ⟨2025, 6, 24, 11⟩
      ((appCycle ⟨2025, 6, 24, 11⟩ ⟨false, true, true, false⟩
        ⟨2025, 6, 24, 10⟩).bk) = none :=
  ⟨by decide,
   second_run_no_backup_due ⟨2025, 6, 24, 11⟩ ⟨false, true, true, false⟩
     ⟨2025, 6, 24, 10⟩ (by decide)⟩

/-- Claim C5: when a tier is due but artifact creation fails (an external
command raises `ExternalCommandFailed`, or the pipeline result is falsy),
no rotation is performed, nothing is saved, the stored timestamps are left
completely unchanged, and the same decision is reached on a re-evaluation
with the same `now`. -/
theorem create_fail_leaves_state (now : Now) (env : ExtEnv)
    (bk : LastBackup) (t : Tier) (hdue : decideTier now bk = some t)
    (hfail : env.dumpRaises = true ∨ env.gzipResult = false) :
    (appCycle now env bk).bk = bk ∧
    (appCycle now env bk).rotated = false ∧
    (appCycle now env bk).saved = false ∧
    decideTier now ((appCycle now env bk).bk) = decideTier now bk := by
  have hc : isTruthy (create_full_backup env) = false := by
    rcases hfail with h | h
    · simp [create_full_backup, h, isTruthy]
    · cases hd : env.dumpRaises <;>
        simp [create_full_backup, h, hd, isTruthy]
  simp [appCycle, hdue, hc]

/-- Claim C5 (witness): the spec's §8 failure scenario — yearly due at
2024-01-01, the dump command raises; timestamps unchanged, no rotation. -/
theorem create_fail_leaves_state_witness :
    decideTier ⟨2024, 1, 1, 1⟩ ⟨2023, 12, 52, 31⟩ = some Tier.yearly ∧
    ((appCycle ⟨2024, 1, 1, 1⟩ ⟨true, false, false, false⟩
        ⟨2023, 12, 52, 31⟩).bk = ⟨2023, 12, 52, 31⟩ ∧
     (appCycle ⟨2024, 1, 1, 1⟩ ⟨true, false, false, false⟩
        ⟨2023, 12, 52, 31⟩).rotated = false ∧
     (appCycle ⟨2024, 1, 1, 1⟩ ⟨true, false, false, false⟩
        ⟨2023, 12, 52, 31⟩).saved = false ∧
     decideTier ⟨2024, 1, 1, 1⟩
        ((appCycle ⟨2024, 1, 1, 1⟩ ⟨true, false, false, false⟩
          ⟨2023, 12, 52, 31⟩).bk) =
        decideTier ⟨2024, 1, 1, 1⟩ ⟨2023, 12, 52, 31⟩) :=
  ⟨by decide,
   create_fail_leaves_state ⟨2024, 1, 1, 1⟩ ⟨true, false, false, false⟩
     ⟨2023, 12, 52, 31⟩ Tier.yearly (by decide) (Or.inl rfl)⟩

/-- Claim C6 (counterexample): with `now.year` strictly below the stored
`last_year` (a backward year jump), the chain is not rejected: at this
concrete input it silently selects a daily backup. -/
theorem year_rollback_counterexample :
    (Now.mk 2024 3 10 6).year < (LastBackup.mk 2025 3 10 5).last_year ∧
    decideTier ⟨2024, 3, 10, 6⟩ ⟨2025, 3, 10, 5⟩ = some Tier.daily := by
  decide

/-- Claim C6 (amended): the scheduler contains no backward-jump check.
With `now.year < lastYear` it never selects the yearly tier, but it falls
through to the lower comparisons unchanged and silently selects monthly,
weekly, or daily whenever the corresponding strict comparison holds. -/
theorem year_rollback_falls_through (now : Now) (bk : LastBackup)
    (h : now.year < bk.last_year) :
    decideTier now bk ≠ some Tier.yearly ∧
    decideTier now bk =
      (if bk.last_month < now.month then some Tier.monthly
       else if bk.last_week < now.isoWeek then some Tier.weekly
       else if bk.last_day < now.day then some Tier.daily
       else none) := by
  have hY : ¬ bk.last_year < now.year := by omega
  refine ⟨?_, by simp [decideTier, hY]⟩
  simp only [decideTier, hY, if_false]
  split_ifs <;> simp

/-- Claim C6 (witness for the amended theorem): the rollback input of the
counterexample, where the chain falls through to the daily comparison. -/
theorem year_rollback_falls_through_witness :
    (Now.mk 2024 3 10 6).year < (LastBackup.mk 2025 3 10 5).last_year ∧
    (decideTier ⟨2024, 3, 10, 6⟩ ⟨2025, 3, 10, 5⟩ ≠ some Tier.yearly ∧
     decideTier ⟨2024, 3, 10, 6⟩ ⟨2025, 3, 10, 5⟩ =
       (if (LastBackup.mk 2025 3 10 5).last_month <
            (Now.mk 2024 3 10 6).month then some Tier.monthly
        else if (LastBackup.mk 2025 3 10 5).last_week <
            (Now.mk 2024 3 10 6).isoWeek then some Tier.weekly
        else if (LastBackup.mk 2025 3 10 5).last_day <
            (Now.mk 2024 3 10 6).day then some Tier.daily
        else none)) :=
  ⟨by decide,
   year_rollback_falls_through ⟨2024, 3, 10, 6⟩ ⟨2025, 3, 10, 5⟩ (by decide)⟩

/-- Claim C7: one app's failure (creation, upload, or rotation) does not
prevent the remaining apps of the loaded list from being evaluated in the
same run: every position of the result list is the cycle of the
corresponding app, computed from that app's own data alone; only a
configuration-load failure aborts the whole run. -/
theorem per_app_failure_isolated (apps : List AppIn) (now : Now) (i : Nat)
    (hi : i < apps.length) :
    ∃ rs, do_backup (some apps) now = some rs ∧ rs.length = apps.length ∧
      rs[i]? = some (appCycle now (apps.get ⟨i, hi⟩).env
        (apps.get ⟨i, hi⟩).bk) ∧
      do_backup none now = none := by
  have hdef : do_backup (some apps) now =
      some (apps.map fun a => appCycle now a.env a.bk) := rfl
  refine ⟨apps.map fun a => appCycle now a.env a.bk, hdef, by simp, ?_, rfl⟩
  rw [List.getElem?_map, List.getElem?_eq_getElem hi]
  simp [List.get_eq_getElem]

/-- Claim C7 (witness): the first app's creation fails (its dump raises),
yet the second app is still evaluated and fully processed. -/
theorem per_app_failure_isolated_witness :
    1 < ([⟨⟨2025, 1, 1, 1⟩, ⟨true, false, false, false⟩⟩,
          ⟨⟨2025, 1, 1, 1⟩, ⟨false, true, true, false⟩⟩] : List AppIn).length ∧
    ∃ rs, do_backup (some [⟨⟨2025, 1, 1, 1⟩, ⟨true, false, false, false⟩⟩,
            ⟨⟨2025, 1, 1, 1⟩, ⟨false, true, true, false⟩⟩]) ⟨2025, 1, 1, 2⟩ =
          some rs ∧
      rs.length = ([⟨⟨2025, 1, 1, 1⟩, ⟨true, false, false, false⟩⟩,
          ⟨⟨2025, 1, 1, 1⟩, ⟨false, true, true, false⟩⟩] : List AppIn).length ∧
      rs[1]? = some (appCycle ⟨2025, 1, 1, 2⟩ ⟨false, true, true, false⟩
        ⟨2025, 1, 1, 1⟩) ∧
      do_backup none ⟨2025, 1, 1, 2⟩ = none :=
  ⟨by decide,
   per_app_failure_isolated
     [⟨⟨2025, 1, 1, 1⟩, ⟨true, false, false, false⟩⟩,
      ⟨⟨2025, 1, 1, 1⟩, ⟨false, true, true, false⟩⟩]
     ⟨2025, 1, 1, 2⟩ 1 (by decide)⟩

/-- Claim C8 (counterexample): the save is not an atomic swap.  During a
concrete save (one app, record advanced to 2024-01-01), the truncated
content left by `open(CONFIG_FILE, 'w')` — the empty file — is neither the
old serialized state (record 2023-12-52-31) nor the new one, so a crash
mid-write can leave a record that is neither. -/
theorem in_place_write_not_atomic_counterexample :
    ¬ IsAtomicSwap
        (save_last_backup_datetime
          [⟨⟨2024, 1, 1, 1⟩, ⟨false, true, true, false⟩⟩])
        (serializeCfg [⟨⟨2023, 12, 52, 31⟩, ⟨false, true, true, false⟩⟩])
        (serializeCfg [⟨⟨2024, 1, 1, 1⟩, ⟨false, true, true, false⟩⟩]) := by
  intro h
  rcases h [] (by decide) with h1 | h1 <;> exact absurd h1 (by decide)

/-- Claim C8 (amended): every save does write the full set of app profiles
as one document (the final observable content is the serialization of the
whole configuration list), but by truncating `CONFIG_FILE` in place and
rewriting it — not by an atomic swap: the observable contents are exactly
the prefixes of the new serialization, starting from the empty (truncated)
file, so a crash mid-write can leave a truncated record. -/
theorem save_writes_whole_config_in_place (cfg : List AppIn) (c : List Char)
    (hc : c ∈ save_last_backup_datetime cfg) :
    ([] : List Char) ∈ save_last_backup_datetime cfg ∧
    serializeCfg cfg ∈ save_last_backup_datetime cfg ∧
    ∃ k, k ≤ (serializeCfg cfg).length ∧ c = (serializeCfg cfg).take k := by
  refine ⟨?_, ?_, ?_⟩
  · exact List.mem_map.mpr ⟨0, List.mem_range.mpr (Nat.succ_pos _), rfl⟩
  · exact List.mem_map.mpr ⟨(serializeCfg cfg).length,
      List.mem_range.mpr (Nat.lt_succ_self _), List.take_length _⟩
  · obtain ⟨k, hk, hck⟩ := List.mem_map.mp hc
    exact ⟨k, Nat.lt_succ_iff.mp (List.mem_range.mp hk), hck.symm⟩

/-- Claim C8 (witness for the amended theorem): a concrete observable
content (the first three written characters) during a concrete save. -/
theorem save_writes_whole_config_in_place_witness :
    (serializeCfg [⟨⟨2024, 1, 1, 1⟩, ⟨false, true, true, false⟩⟩]).take 3 ∈
      save_last_backup_datetime
        [⟨⟨2024, 1, 1, 1⟩, ⟨false, true, true, false⟩⟩] ∧
    (([] : List Char) ∈ save_last_backup_datetime
        [⟨⟨2024, 1, 1, 1⟩, ⟨false, true, true, false⟩⟩] ∧
     serializeCfg [⟨⟨2024, 1, 1, 1⟩, ⟨false, true, true, false⟩⟩] ∈
       save_last_backup_datetime
         [⟨⟨2024, 1, 1, 1⟩, ⟨false, true, true, false⟩⟩] ∧
     ∃ k, k ≤ (serializeCfg
         [⟨⟨2024, 1, 1, 1⟩, ⟨false, true, true, false⟩⟩]).length ∧
       (serializeCfg [⟨⟨2024, 1, 1, 1⟩, ⟨false, true, true, false⟩⟩]).take 3 =
         (serializeCfg
           [⟨⟨2024, 1, 1, 1⟩, ⟨false, true, true, false⟩⟩]).take k) :=
  ⟨by decide,
   save_writes_whole_config_in_place
     [⟨⟨2024, 1, 1, 1⟩, ⟨false, true, true, false⟩⟩]
     ((serializeCfg [⟨⟨2024, 1, 1, 1⟩, ⟨false, true, true, false⟩⟩]).take 3)
     (by decide)⟩

/-- Claim C9: for every app, tier and creation time, the artifact path is
the app's local backup directory followed by the canonical name
`appName`, underscore, minute-precision timestamp, underscore, tier, dot,
extension `gz`, with the tier one of the four scheduler tiers. -/
theorem artifact_name_canonical (dir app : String) (t : Tier)
    (y mo d h mi : Nat) :
    backup_file dir app (filestamp y mo d h mi) (tierString t) =
      dir ++ canonicalName app (filestamp y mo d h mi) (tierString t) "gz" ∧
    (tierString t = "daily" ∨ tierString t = "weekly" ∨
     tierString t = "monthly" ∨ tierString t = "yearly") := by
  constructor
  · simp [backup_file, canonicalName, String.append_assoc]
  · cases t <;> simp [tierString]

/-- Claim C10: when a dump/compress command raises
`ExternalCommandFailed`, `create_full_backup` returns `None` — not the
boolean `False` its docstring advertises — and `do_backup` treats this
falsy value as creation failure: no timestamp advance, no rotation, no
save. -/
theorem exception_path_returns_none (env : ExtEnv)
    (h : env.dumpRaises = true) (now : Now) (bk : LastBackup) :
    create_full_backup env = none ∧
    create_full_backup env ≠ some false ∧
    isTruthy (create_full_backup env) = false ∧
    (appCycle now env bk).bk = bk ∧
    (appCycle now env bk).rotated = false ∧
    (appCycle now env bk).saved = false := by
  have h1 : create_full_backup env = none := by simp [create_full_backup, h]
  have h2 : isTruthy (create_full_backup env) = false := by simp [h1, isTruthy]
  refine ⟨h1, by simp [h1], h2, ?_, ?_, ?_⟩ <;>
    cases hd : decideTier now bk <;> simp [appCycle, hd, h2]

/-- Claim C10 (witness): the dump raises on a daily-due run; the returned
value is `None` and the app's state is untouched. -/
theorem exception_path_returns_none_witness :
    (ExtEnv.mk true false false false).dumpRaises = true ∧
    (create_full_backup ⟨true, false, false, false⟩ = none ∧
     create_full_backup ⟨true, false, false, false⟩ ≠ some false ∧
     isTruthy (create_full_backup ⟨true, false, false, false⟩) = false ∧
     (appCycle ⟨2025, 1, 1, 2⟩ ⟨true, false, false, false⟩
        ⟨2025, 1, 1, 1⟩).bk = ⟨2025, 1, 1, 1⟩ ∧
     (appCycle ⟨2025, 1, 1, 2⟩ ⟨true, false, false, false⟩
        ⟨2025, 1, 1, 1⟩).rotated = false ∧
     (appCycle ⟨2025, 1, 1, 2⟩ ⟨true, false, false, false⟩
        ⟨2025, 1, 1, 1⟩).saved = false) :=
  ⟨rfl,
   exception_path_returns_none ⟨true, false, false, false⟩ rfl
     ⟨2025, 1, 1, 2⟩ ⟨2025, 1, 1, 1⟩⟩
